import Mathlib

/-!
Shallow embedding of the gb_emulator instruction-execution core.

Sources embedded:
- src/memory.rs        : Memory bus (flat byte array, construction, header check)
- src/cpu/instructions.rs : operand enumerations and the Instruction union
- src/cpu/mod.rs       : CPU state and execute_instruction with its helpers

Machine integers (u8 / u16) are modelled as Nat with explicit wraparound
(mod 256 / mod 65536) exactly where the Rust code wraps.  A Rust panic
(array index out of bounds, todo macro, copy_from_slice length mismatch)
is modelled as the value none of an Option-returning function.
-/

namespace GB

/-! ## Memory bus (src/memory.rs) -/

def BANK_0_START : Nat := 0x0000
def BANK_0_END : Nat := 0x3FFF
def BANK_0_SIZE : Nat := BANK_0_END - BANK_0_START + 1

def BANK_N_START : Nat := 0x4000
def BANK_N_END : Nat := 0x7FFF
def BANK_N_SIZE : Nat := BANK_N_END - BANK_N_START + 1

/-- src/memory.rs lines 47-65: five independent interrupt booleans. -/
structure InterruptFlags where
  vblank : Bool
  stat : Bool
  timer : Bool
  serial : Bool
  joypad : Bool
deriving Repr, DecidableEq

def InterruptFlags.new : InterruptFlags :=
  { vblank := false, stat := false, timer := false, serial := false, joypad := false }

/-- src/memory.rs lines 67-70: `bus: [u8; 0xFFFF]` — an array of exactly
0xFFFF (= 65535) bytes, one byte short of the full 16-bit address space.
The array is modelled by its content function; the fixed length 0xFFFF is
enforced at every access site (see `read_byte`). -/
structure Memory where
  bus : Nat → Nat
  interrupt_flags : InterruptFlags

/-- src/memory.rs lines 73-92, `Memory::new`.

The bus is initialised to 0xFF everywhere, then
`bus[0x0000..(BANK_0_SIZE + BANK_N_SIZE)].copy_from_slice(rom.as_slice().try_into().expect(..))`
copies the cartridge image over the low addresses.  The `try_into` target
type is the slice type `&[u8]` itself, so the reflexive infallible
conversion applies and the `expect` (with its "bigger than allowed"
message) can never fire; the length check that actually runs is the one
inside `copy_from_slice`, which panics unless the source length equals
the destination length `BANK_0_SIZE + BANK_N_SIZE` (= 0x8000) exactly.
The panic is modelled as none.  `boot_rom` is accepted and never used,
as in the source. -/
def Memory.new (_boot_rom : Option (List Nat)) (rom : List Nat) : Option Memory :=
  if rom.length = BANK_0_SIZE + BANK_N_SIZE then
    some { bus := fun i => if i < BANK_0_SIZE + BANK_N_SIZE then rom.getD i 0xFF else 0xFF,
           interrupt_flags := InterruptFlags.new }
  else
    none

/-- src/memory.rs lines 94-96: `self.bus[address as usize]`.
Indexing the 0xFFFF-element array panics for `address = 0xFFFF`
(the largest u16), modelled as none. -/
def Memory.read_byte (m : Memory) (address : Nat) : Option Nat :=
  if address < 0xFFFF then some (m.bus address) else none

/-- Helper for `read_byte_range`: reads each listed address in order via
`read_byte`; a panicking read aborts the whole loop (none). -/
def Memory.read_bytes (m : Memory) : List Nat → Option (List Nat)
  | [] => some []
  | addr :: addrs =>
    (m.read_byte addr).bind fun b => (m.read_bytes addrs).map fun bs => b :: bs

/-- src/memory.rs lines 98-106, `read_byte_range`.  The parameter is a
Rust `Range` value, but the loop iterates `range.start..=range.end`
(both endpoints INCLUSIVE); we take the two endpoints directly. -/
def Memory.read_byte_range (m : Memory) (range_start range_end : Nat) : Option (List Nat) :=
  m.read_bytes (List.range' range_start (range_end + 1 - range_start))

/-- src/memory.rs lines 121-128: the fixed 48-byte reference logo. -/
def Memory.official_logo (_m : Memory) : List Nat :=
  [0xCE, 0xED, 0x66, 0x66, 0xCC, 0x0D, 0x00, 0x0B, 0x03, 0x73, 0x00, 0x83, 0x00, 0x0C,
   0x00, 0x0D, 0x00, 0x08, 0x11, 0x1F, 0x88, 0x89, 0x00, 0x0E, 0xDC, 0xCC, 0x6E, 0xE6,
   0xDD, 0xDD, 0xD9, 0x99, 0xBB, 0xBB, 0x67, 0x63, 0x6E, 0x0E, 0xEC, 0xCC, 0xDD, 0xDC,
   0x99, 0x9F, 0xBB, 0xB9, 0x33, 0x3E]

/-- src/memory.rs lines 108-119, `verify_logo`.  Reads the header range
(the Rust call passes the range value `0x0104..0x0133` and the loop reads
0x0104 through 0x0133 inclusive) and checks that every byte of the
reference logo occurs somewhere in it (`iter().all(.. contains ..)` — a
subset check, not a positional comparison).  Returns true on success;
false models the fatal panic. -/
def Memory.verify_logo (m : Memory) : Bool :=
  match m.read_byte_range 0x0104 0x0133 with
  | some logo_data => m.official_logo.all fun byte => logo_data.contains byte
  | none => false

/-! ## Register file (src/cpu/registers.rs — not in the snapshot) -/

/-- Modelled from the spec: the file src/cpu/registers.rs is missing from
the snapshot (only its module declaration and call sites are present).
Spec section 3: four independent flag booleans zero, subtract, half_carry,
carry. -/
structure FlagsRegister where
  zero : Bool
  subtract : Bool
  half_carry : Bool
  carry : Bool
deriving Repr, DecidableEq

/-- Modelled from the spec: seven independent 8-bit registers
a, b, c, d, e, h, l plus the flags value (spec section 3). -/
structure Registers where
  a : Nat
  b : Nat
  c : Nat
  d : Nat
  e : Nat
  h : Nat
  l : Nat
  f : FlagsRegister
deriving Repr, DecidableEq

/-- Modelled from the spec: created with all 8-bit registers
zero-initialised and all flags false (spec section 3, lifecycle). -/
def Registers.new : Registers :=
  { a := 0, b := 0, c := 0, d := 0, e := 0, h := 0, l := 0,
    f := { zero := false, subtract := false, half_carry := false, carry := false } }

/-- Modelled from the spec: `BC = (b<<8)|c` (spec section 3). -/
@[reducible] def Registers.get_bc (r : Registers) : Nat := (r.b <<< 8) ||| r.c

/-- Modelled from the spec: `DE = (d<<8)|e`. -/
@[reducible] def Registers.get_de (r : Registers) : Nat := (r.d <<< 8) ||| r.e

/-- Modelled from the spec: `HL = (h<<8)|l`. -/
@[reducible] def Registers.get_hl (r : Registers) : Nat := (r.h <<< 8) ||| r.l

/-- Modelled from the spec: a paired write splits the 16-bit value back
into its two owning 8-bit registers (spec section 3): high byte into the
first register of the pair, low byte into the second. -/
@[reducible] def Registers.set_bc (r : Registers) (v : Nat) : Registers :=
  { r with b := (v >>> 8) &&& 0xFF, c := v &&& 0xFF }

/-- Modelled from the spec: split of the 16-bit value into d and e. -/
@[reducible] def Registers.set_de (r : Registers) (v : Nat) : Registers :=
  { r with d := (v >>> 8) &&& 0xFF, e := v &&& 0xFF }

/-- Modelled from the spec: split of the 16-bit value into h and l. -/
@[reducible] def Registers.set_hl (r : Registers) (v : Nat) : Registers :=
  { r with h := (v >>> 8) &&& 0xFF, l := v &&& 0xFF }

/-! ## Instruction model (src/cpu/instructions.rs) -/

/-- src/cpu/instructions.rs lines 3-12. -/
inductive ArithmeticTarget
  | A | B | C | D | E | H | L | HLI
deriving Repr, DecidableEq

/-- src/cpu/instructions.rs lines 14-27. -/
inductive IncDecTarget
  | A | B | C | D | E | H | L | BC | DE | HL | HLI | SP
deriving Repr, DecidableEq

/-- src/cpu/instructions.rs lines 29-34. -/
inductive ADDHLTarget
  | BC | DE | HL | SP
deriving Repr, DecidableEq

/-- src/cpu/instructions.rs lines 36-45. -/
inductive PrefixTarget
  | A | B | C | D | E | H | L | HLI
deriving Repr, DecidableEq

/-- src/cpu/instructions.rs lines 47-56. -/
inductive BitPosition
  | B0 | B1 | B2 | B3 | B4 | B5 | B6 | B7
deriving Repr, DecidableEq

/-- src/cpu/instructions.rs lines 58-71: `From<BitPosition> for u8`. -/
def BitPosition.toU8 : BitPosition → Nat
  | .B0 => 0
  | .B1 => 1
  | .B2 => 2
  | .B3 => 3
  | .B4 => 4
  | .B5 => 5
  | .B6 => 6
  | .B7 => 7

/-- src/cpu/instructions.rs lines 73-82. -/
inductive LoadByteTarget
  | A | B | C | D | E | H | L | HLI
deriving Repr, DecidableEq

/-- src/cpu/instructions.rs lines 84-93. -/
inductive LoadByteSource
  | A | B | C | D | E | H | L | HLI
deriving Repr, DecidableEq

/-- src/cpu/instructions.rs lines 101-104: the first component has type
LoadByteSource and the second has type LoadByteTarget, in that order. -/
inductive LoadType
  | BYTE (source : LoadByteSource) (target : LoadByteTarget)
deriving Repr, DecidableEq

/-- src/cpu/instructions.rs lines 125-166 (commented-out variants such as
RST and the WORD load are omitted, as in the compiled source). -/
inductive Instruction
  | ADD (target : ArithmeticTarget)
  | ADC (target : ArithmeticTarget)
  | AND (target : ArithmeticTarget)
  | CP (target : ArithmeticTarget)
  | DEC (target : IncDecTarget)
  | INC (target : IncDecTarget)
  | OR (target : ArithmeticTarget)
  | SBC (target : ArithmeticTarget)
  | SUB (target : ArithmeticTarget)
  | XOR (target : ArithmeticTarget)
  | ADDHL (target : ADDHLTarget)
  | BIT (target : PrefixTarget) (bit_position : BitPosition)
  | SET (target : PrefixTarget) (bit_position : BitPosition)
  | SWAP (target : PrefixTarget)
  | RL (target : PrefixTarget)
  | RLA
  | RLC (target : PrefixTarget)
  | RLCA
  | RR (target : PrefixTarget)
  | RRA
  | RRC (target : PrefixTarget)
  | RRCA
  | LD (load_type : LoadType)
  | CCF
  | CPL
  | SCF
deriving Repr, DecidableEq

/-! ## CPU (src/cpu/mod.rs) -/

/-- src/cpu/mod.rs lines 145-150. -/
structure CPU where
  pc : Nat
  sp : Nat
  registers : Registers
  memory : Memory

/-- src/cpu/mod.rs lines 154-161 (`Memory::new` may panic, hence Option). -/
def CPU.new (boot_rom : Option (List Nat)) (rom : List Nat) : Option CPU :=
  (Memory.new boot_rom rom).map fun memory =>
    { pc := 0, sp := 0, registers := Registers.new, memory := memory }

/-! Expansion of the `operate_8bit_register!` macro (src/cpu/mod.rs
lines 13-45): run the instruction function on a register value and store
the returned byte back into a register.  One store helper per register. -/

@[reducible] def CPU.store_a (p : Nat × CPU) : CPU :=
  { p.2 with registers := { p.2.registers with a := p.1 } }

@[reducible] def CPU.store_b (p : Nat × CPU) : CPU :=
  { p.2 with registers := { p.2.registers with b := p.1 } }

@[reducible] def CPU.store_c (p : Nat × CPU) : CPU :=
  { p.2 with registers := { p.2.registers with c := p.1 } }

@[reducible] def CPU.store_d (p : Nat × CPU) : CPU :=
  { p.2 with registers := { p.2.registers with d := p.1 } }

@[reducible] def CPU.store_e (p : Nat × CPU) : CPU :=
  { p.2 with registers := { p.2.registers with e := p.1 } }

@[reducible] def CPU.store_h (p : Nat × CPU) : CPU :=
  { p.2 with registers := { p.2.registers with h := p.1 } }

@[reducible] def CPU.store_l (p : Nat × CPU) : CPU :=
  { p.2 with registers := { p.2.registers with l := p.1 } }

/-! ### 8 bit instruction functions (src/cpu/mod.rs lines 271-388)

Each Rust function takes `&mut self`, reads `self.registers`, writes
`self.registers.f`, and returns the new byte; here each returns the pair
(new byte, updated CPU).  `u8::overflowing_add` is modelled as
`(x + y) % 256` with overflow bit `256 <= x + y`; `u8::overflowing_sub`
as `(256 + x - y) % 256` with underflow bit `x < y` (the inputs are
bytes); `u8::from(bool)` as `if .. then 1 else 0`. -/

/-- src/cpu/mod.rs lines 271-279, `add`. -/
@[reducible] def CPU.add (cpu : CPU) (value : Nat) : Nat × CPU :=
  let new_value := (cpu.registers.a + value) % 256
  let did_overflow := decide (256 ≤ cpu.registers.a + value)
  (new_value,
   { cpu with registers := { cpu.registers with f :=
      { zero := decide (new_value = 0)
        subtract := false
        half_carry := decide (0xF < (cpu.registers.a &&& 0xF) + (value &&& 0xF))
        carry := did_overflow } } })

/-- src/cpu/mod.rs lines 281-292, `adc`. -/
@[reducible] def CPU.adc (cpu : CPU) (value : Nat) : Nat × CPU :=
  let carry := if cpu.registers.f.carry then 1 else 0
  let new_value := (cpu.registers.a + value) % 256
  let did_overflow := decide (256 ≤ cpu.registers.a + value)
  let new_value_with_carry := (new_value + carry) % 256
  let did_carry_overflow := decide (256 ≤ new_value + carry)
  (new_value_with_carry,
   { cpu with registers := { cpu.registers with f :=
      { zero := decide (new_value_with_carry = 0)
        subtract := false
        half_carry := decide (0xF < (cpu.registers.a &&& 0xF) + (value &&& 0xF) + carry)
        carry := did_overflow || did_carry_overflow } } })

/-- src/cpu/mod.rs lines 294-302, `and`. -/
@[reducible] def CPU.and (cpu : CPU) (value : Nat) : Nat × CPU :=
  let new_value := cpu.registers.a &&& value
  (new_value,
   { cpu with registers := { cpu.registers with f :=
      { zero := decide (new_value = 0)
        subtract := false
        half_carry := true
        carry := false } } })

/-- src/cpu/mod.rs lines 304-317, `compare` (flags only, no value). -/
@[reducible] def CPU.compare (cpu : CPU) (value : Nat) : CPU :=
  let new_value := (256 + cpu.registers.a - value) % 256
  let did_underflow := decide (cpu.registers.a < value)
  { cpu with registers := { cpu.registers with f :=
     { zero := decide (new_value = 0)
       subtract := true
       half_carry := decide ((cpu.registers.a &&& 0xF) < (value &&& 0xF))
       carry := did_underflow } } }

/-- src/cpu/mod.rs lines 319-331, `dec` (`wrapping_sub(1)`; carry flag
untouched). -/
@[reducible] def CPU.dec (cpu : CPU) (value : Nat) : Nat × CPU :=
  let new_value := (value + 255) % 256
  (new_value,
   { cpu with registers := { cpu.registers with f :=
      { cpu.registers.f with
        zero := decide (new_value = 0)
        subtract := true
        half_carry := decide (value &&& 0xF = 0) } } })

/-- src/cpu/mod.rs lines 333-345, `inc` (`wrapping_add(1)`; carry flag
untouched). -/
@[reducible] def CPU.inc (cpu : CPU) (value : Nat) : Nat × CPU :=
  let new_value := (value + 1) % 256
  (new_value,
   { cpu with registers := { cpu.registers with f :=
      { cpu.registers.f with
        zero := decide (new_value = 0)
        subtract := false
        half_carry := decide (value &&& 0xF = 0xF) } } })

/-- src/cpu/mod.rs lines 347-355, `or`. -/
@[reducible] def CPU.or (cpu : CPU) (value : Nat) : Nat × CPU :=
  let new_value := cpu.registers.a ||| value
  (new_value,
   { cpu with registers := { cpu.registers with f :=
      { zero := decide (new_value = 0)
        subtract := false
        half_carry := false
        carry := false } } })

/-- src/cpu/mod.rs lines 357-368, `sbc`. -/
@[reducible] def CPU.sbc (cpu : CPU) (value : Nat) : Nat × CPU :=
  let carry := if cpu.registers.f.carry then 1 else 0
  let new_value := (256 + cpu.registers.a - value) % 256
  let did_underflow := decide (cpu.registers.a < value)
  let new_value_with_carry := (256 + new_value - carry) % 256
  let did_carry_underflow := decide (new_value < carry)
  (new_value_with_carry,
   { cpu with registers := { cpu.registers with f :=
      { zero := decide (new_value_with_carry = 0)
        subtract := true
        half_carry := decide ((cpu.registers.a &&& 0xF) < (value &&& 0xF) + carry)
        carry := did_underflow || did_carry_underflow } } })

/-- src/cpu/mod.rs lines 370-378, `sub`. -/
@[reducible] def CPU.sub (cpu : CPU) (value : Nat) : Nat × CPU :=
  let new_value := (256 + cpu.registers.a - value) % 256
  let did_underflow := decide (cpu.registers.a < value)
  (new_value,
   { cpu with registers := { cpu.registers with f :=
      { zero := decide (new_value = 0)
        subtract := true
        half_carry := decide ((cpu.registers.a &&& 0xF) < (value &&& 0xF))
        carry := did_underflow } } })

/-- src/cpu/mod.rs lines 380-388, `xor`. -/
@[reducible] def CPU.xor (cpu : CPU) (value : Nat) : Nat × CPU :=
  let new_value := cpu.registers.a ^^^ value
  (new_value,
   { cpu with registers := { cpu.registers with f :=
      { zero := decide (new_value = 0)
        subtract := false
        half_carry := false
        carry := false } } })

/-! ### 16 bit instruction functions (src/cpu/mod.rs lines 392-415) -/

/-- src/cpu/mod.rs lines 392-407, `add_hl` (`u16::overflowing_add`; the
zero flag is untouched). -/
@[reducible] def CPU.add_hl (cpu : CPU) (value : Nat) : Nat × CPU :=
  let hl := cpu.registers.get_hl
  let new_value := (hl + value) % 65536
  let did_overflow := decide (65536 ≤ hl + value)
  let mask := 0x7FF
  (new_value,
   { cpu with registers := { cpu.registers with f :=
      { cpu.registers.f with
        subtract := false
        carry := did_overflow
        half_carry := decide (mask < (value &&& mask) + (hl &&& mask)) } } })

/-- src/cpu/mod.rs lines 409-411 (`u16::wrapping_add(1)`; no flags). -/
@[reducible] def CPU.inc_16bit (_cpu : CPU) (value : Nat) : Nat :=
  (value + 1) % 65536

/-- src/cpu/mod.rs lines 413-415 (`u16::wrapping_sub(1)`; no flags). -/
@[reducible] def CPU.dec_16bit (_cpu : CPU) (value : Nat) : Nat :=
  (value + 65535) % 65536

/-! ### Bit instruction functions (src/cpu/mod.rs lines 419-437) -/

/-- src/cpu/mod.rs lines 419-423, `bit` (flags only; carry untouched). -/
@[reducible] def CPU.bit (cpu : CPU) (value : Nat) (bit_position : BitPosition) : CPU :=
  { cpu with registers := { cpu.registers with f :=
     { cpu.registers.f with
       zero := decide ((value >>> bit_position.toU8) &&& 1 = 0)
       subtract := false
       half_carry := true } } }

/-- src/cpu/mod.rs lines 425-427, `set` (no flag writes at all). -/
@[reducible] def CPU.set (cpu : CPU) (value : Nat) (bit_position : BitPosition) : Nat × CPU :=
  (value ||| (1 <<< bit_position.toU8), cpu)

/-- src/cpu/mod.rs lines 429-437, `swap`. -/
@[reducible] def CPU.swap (cpu : CPU) (value : Nat) : Nat × CPU :=
  let new_value := ((value &&& 0xF) <<< 4) ||| ((value &&& 0xF0) >>> 4)
  (new_value,
   { cpu with registers := { cpu.registers with f :=
      { zero := decide (new_value = 0)
        subtract := false
        half_carry := false
        carry := false } } })

/-! ### Bit shift instruction functions (src/cpu/mod.rs lines 441-517) -/

/-- src/cpu/mod.rs lines 441-452, `rl` (the u8 shift
`(value & 0xFF) << 1` silently drops the high bit: mod 256). -/
@[reducible] def CPU.rl (cpu : CPU) (value : Nat) : Nat × CPU :=
  let carry := if cpu.registers.f.carry then 1 else 0
  let highest_bit := (value &&& 0xFF) >>> 7
  let new_value := (((value &&& 0xFF) <<< 1) % 256) ||| carry
  (new_value,
   { cpu with registers := { cpu.registers with f :=
      { zero := decide (new_value = 0)
        subtract := false
        half_carry := false
        carry := decide (highest_bit = 1) } } })

/-- src/cpu/mod.rs lines 454-459, `rla`: `rl`, then zero forced false. -/
@[reducible] def CPU.rla (cpu : CPU) (value : Nat) : Nat × CPU :=
  let p := cpu.rl value
  (p.1, { p.2 with registers := { p.2.registers with f :=
           { p.2.registers.f with zero := false } } })

/-- src/cpu/mod.rs lines 461-471, `rlc`. -/
@[reducible] def CPU.rlc (cpu : CPU) (value : Nat) : Nat × CPU :=
  let highest_bit := (value &&& 0xFF) >>> 7
  let new_value := (((value &&& 0xFF) <<< 1) % 256) ||| highest_bit
  (new_value,
   { cpu with registers := { cpu.registers with f :=
      { zero := decide (new_value = 0)
        subtract := false
        half_carry := false
        carry := decide (highest_bit = 1) } } })

/-- src/cpu/mod.rs lines 473-478, `rlca`: `rlc`, then zero forced false. -/
@[reducible] def CPU.rlca (cpu : CPU) (value : Nat) : Nat × CPU :=
  let p := cpu.rlc value
  (p.1, { p.2 with registers := { p.2.registers with f :=
           { p.2.registers.f with zero := false } } })

/-- src/cpu/mod.rs lines 480-491, `rr` (bit 0 rotated into bit 7). -/
@[reducible] def CPU.rr (cpu : CPU) (value : Nat) : Nat × CPU :=
  let lowest_bit := value &&& 0x1
  let new_value := (lowest_bit <<< 7) ||| (value >>> 1)
  (new_value,
   { cpu with registers := { cpu.registers with f :=
      { zero := decide (new_value = 0)
        subtract := false
        half_carry := false
        carry := decide (lowest_bit = 1) } } })

/-- src/cpu/mod.rs lines 493-498, `rra`: `rr`, then zero forced false. -/
@[reducible] def CPU.rra (cpu : CPU) (value : Nat) : Nat × CPU :=
  let p := cpu.rr value
  (p.1, { p.2 with registers := { p.2.registers with f :=
           { p.2.registers.f with zero := false } } })

/-- src/cpu/mod.rs lines 500-510, `rrc`: a plain right shift — bit 0 is
dropped, NOT rotated into bit 7. -/
@[reducible] def CPU.rrc (cpu : CPU) (value : Nat) : Nat × CPU :=
  let lowest_bit := value &&& 0x1
  let new_value := value >>> 1
  (new_value,
   { cpu with registers := { cpu.registers with f :=
      { zero := decide (new_value = 0)
        subtract := false
        half_carry := false
        carry := decide (lowest_bit = 1) } } })

/-- src/cpu/mod.rs lines 512-517, `rrca`: `rrc`, then zero forced false. -/
@[reducible] def CPU.rrca (cpu : CPU) (value : Nat) : Nat × CPU :=
  let p := cpu.rrc value
  (p.1, { p.2 with registers := { p.2.registers with f :=
           { p.2.registers.f with zero := false } } })

/-! ### Misc instruction functions (src/cpu/mod.rs lines 521-539) -/

/-- src/cpu/mod.rs lines 521-525, `ccf` (zero untouched). -/
@[reducible] def CPU.ccf (cpu : CPU) : CPU :=
  { cpu with registers := { cpu.registers with f :=
     { cpu.registers.f with
       subtract := false
       half_carry := false
       carry := !cpu.registers.f.carry } } }

/-- src/cpu/mod.rs lines 527-533, `complement` (u8 bitwise not; zero and
carry untouched). -/
@[reducible] def CPU.complement (cpu : CPU) (value : Nat) : Nat × CPU :=
  let new_value := 255 - (value % 256)
  (new_value,
   { cpu with registers := { cpu.registers with f :=
      { cpu.registers.f with
        subtract := true
        half_carry := true } } })

/-- src/cpu/mod.rs lines 535-539, `scf` (zero untouched). -/
@[reducible] def CPU.scf (cpu : CPU) : CPU :=
  { cpu with registers := { cpu.registers with f :=
     { cpu.registers.f with
       subtract := false
       half_carry := false
       carry := true } } }

/-! ### Dispatch helpers

These are the expansions of the dispatch macros of src/cpu/mod.rs:
`perform_arithmetic!` (lines 64-96) and the per-target dispatch for CB
instructions (lines 98-143).  Every `HLI` arm is the `todo!()` macro in
the source — a panic, modelled as none. -/

/-- `perform_arithmetic!(register, self.fn => a)` (src/cpu/mod.rs lines
82-95): apply the function to the chosen register value and store the
result into `a`. -/
@[reducible] def CPU.perform_arithmetic_store_a (cpu : CPU) (fn : CPU → Nat → Nat × CPU) :
    ArithmeticTarget → Option CPU
  | .A => some (CPU.store_a (fn cpu cpu.registers.a))
  | .B => some (CPU.store_a (fn cpu cpu.registers.b))
  | .C => some (CPU.store_a (fn cpu cpu.registers.c))
  | .D => some (CPU.store_a (fn cpu cpu.registers.d))
  | .E => some (CPU.store_a (fn cpu cpu.registers.e))
  | .H => some (CPU.store_a (fn cpu cpu.registers.h))
  | .L => some (CPU.store_a (fn cpu cpu.registers.l))
  | .HLI => none

/-- `perform_arithmetic!(register, self.fn)` (src/cpu/mod.rs lines
66-79): apply the function for its flag effects only. -/
@[reducible] def CPU.perform_arithmetic_flags_only (cpu : CPU) (fn : CPU → Nat → CPU) :
    ArithmeticTarget → Option CPU
  | .A => some (fn cpu cpu.registers.a)
  | .B => some (fn cpu cpu.registers.b)
  | .C => some (fn cpu cpu.registers.c)
  | .D => some (fn cpu cpu.registers.d)
  | .E => some (fn cpu cpu.registers.e)
  | .H => some (fn cpu cpu.registers.h)
  | .L => some (fn cpu cpu.registers.l)
  | .HLI => none

/-- CB-target dispatch storing the result back into the same register
(src/cpu/mod.rs lines 114-142). -/
@[reducible] def CPU.prefixed_store (cpu : CPU) (fn : CPU → Nat → Nat × CPU) :
    PrefixTarget → Option CPU
  | .A => some (CPU.store_a (fn cpu cpu.registers.a))
  | .B => some (CPU.store_b (fn cpu cpu.registers.b))
  | .C => some (CPU.store_c (fn cpu cpu.registers.c))
  | .D => some (CPU.store_d (fn cpu cpu.registers.d))
  | .E => some (CPU.store_e (fn cpu cpu.registers.e))
  | .H => some (CPU.store_h (fn cpu cpu.registers.h))
  | .L => some (CPU.store_l (fn cpu cpu.registers.l))
  | .HLI => none

/-- CB-target dispatch for flag-only operations (src/cpu/mod.rs lines
99-112, used by BIT). -/
@[reducible] def CPU.prefixed_flags_only (cpu : CPU) (fn : CPU → Nat → CPU) :
    PrefixTarget → Option CPU
  | .A => some (fn cpu cpu.registers.a)
  | .B => some (fn cpu cpu.registers.b)
  | .C => some (fn cpu cpu.registers.c)
  | .D => some (fn cpu cpu.registers.d)
  | .E => some (fn cpu cpu.registers.e)
  | .H => some (fn cpu cpu.registers.h)
  | .L => some (fn cpu cpu.registers.l)
  | .HLI => none

/-- src/cpu/mod.rs lines 172-185, the DEC dispatch arm (8-bit registers
store through `dec`, 16-bit pairs through `dec_16bit`; `HLI` and `SP`
are `todo!()` panics). -/
@[reducible] def CPU.execute_dec (cpu : CPU) : IncDecTarget → Option CPU
  | .A => some (CPU.store_a (cpu.dec cpu.registers.a))
  | .B => some (CPU.store_b (cpu.dec cpu.registers.b))
  | .C => some (CPU.store_c (cpu.dec cpu.registers.c))
  | .D => some (CPU.store_d (cpu.dec cpu.registers.d))
  | .E => some (CPU.store_e (cpu.dec cpu.registers.e))
  | .H => some (CPU.store_h (cpu.dec cpu.registers.h))
  | .L => some (CPU.store_l (cpu.dec cpu.registers.l))
  | .BC =>
      some { cpu with registers := cpu.registers.set_bc (cpu.dec_16bit cpu.registers.get_bc) }
  | .DE =>
      some { cpu with registers := cpu.registers.set_de (cpu.dec_16bit cpu.registers.get_de) }
  | .HL =>
      some { cpu with registers := cpu.registers.set_hl (cpu.dec_16bit cpu.registers.get_hl) }
  | .HLI => none
  | .SP => none

/-- src/cpu/mod.rs lines 186-199, the INC dispatch arm. -/
@[reducible] def CPU.execute_inc (cpu : CPU) : IncDecTarget → Option CPU
  | .A => some (CPU.store_a (cpu.inc cpu.registers.a))
  | .B => some (CPU.store_b (cpu.inc cpu.registers.b))
  | .C => some (CPU.store_c (cpu.inc cpu.registers.c))
  | .D => some (CPU.store_d (cpu.inc cpu.registers.d))
  | .E => some (CPU.store_e (cpu.inc cpu.registers.e))
  | .H => some (CPU.store_h (cpu.inc cpu.registers.h))
  | .L => some (CPU.store_l (cpu.inc cpu.registers.l))
  | .BC =>
      some { cpu with registers := cpu.registers.set_bc (cpu.inc_16bit cpu.registers.get_bc) }
  | .DE =>
      some { cpu with registers := cpu.registers.set_de (cpu.inc_16bit cpu.registers.get_de) }
  | .HL =>
      some { cpu with registers := cpu.registers.set_hl (cpu.inc_16bit cpu.registers.get_hl) }
  | .HLI => none
  | .SP => none

/-- src/cpu/mod.rs lines 208-218, the ADDHL dispatch arm: the operand
pair is read first (`SP` is a `todo!()` panic), then `add_hl` runs and
its result is written to the HL pair. -/
@[reducible] def CPU.execute_addhl (cpu : CPU) (register : ADDHLTarget) : Option CPU :=
  (match register with
   | ADDHLTarget.BC => some cpu.registers.get_bc
   | ADDHLTarget.DE => some cpu.registers.get_de
   | ADDHLTarget.HL => some cpu.registers.get_hl
   | ADDHLTarget.SP => none).map fun value =>
    let p := cpu.add_hl value
    { p.2 with registers := p.2.registers.set_hl p.1 }

/-- src/cpu/mod.rs lines 233-242: the LD BYTE source read.  The matched
binder is named `source` in the Rust code but has type LoadByteTarget;
`HLI` is a `todo!()` panic. -/
@[reducible] def CPU.ld_read (cpu : CPU) : LoadByteTarget → Option Nat
  | LoadByteTarget.A => some cpu.registers.a
  | LoadByteTarget.B => some cpu.registers.b
  | LoadByteTarget.C => some cpu.registers.c
  | LoadByteTarget.D => some cpu.registers.d
  | LoadByteTarget.E => some cpu.registers.e
  | LoadByteTarget.H => some cpu.registers.h
  | LoadByteTarget.L => some cpu.registers.l
  | LoadByteTarget.HLI => none

/-- src/cpu/mod.rs lines 244-253: the LD BYTE register write.  The
matched binder is named `target` in the Rust code but has type
LoadByteSource; `HLI` is a `todo!()` panic. -/
@[reducible] def CPU.ld_write (cpu : CPU) (source_value : Nat) : LoadByteSource → Option CPU
  | LoadByteSource.A => some { cpu with registers := { cpu.registers with a := source_value } }
  | LoadByteSource.B => some { cpu with registers := { cpu.registers with b := source_value } }
  | LoadByteSource.C => some { cpu with registers := { cpu.registers with c := source_value } }
  | LoadByteSource.D => some { cpu with registers := { cpu.registers with d := source_value } }
  | LoadByteSource.E => some { cpu with registers := { cpu.registers with e := source_value } }
  | LoadByteSource.H => some { cpu with registers := { cpu.registers with h := source_value } }
  | LoadByteSource.L => some { cpu with registers := { cpu.registers with l := source_value } }
  | LoadByteSource.HLI => none

/-- src/cpu/mod.rs lines 231-253, the LD BYTE dispatch arm: the source
destructures `LoadType::BYTE(target, source)`, so the FIRST component
(of type LoadByteSource) is the register WRITTEN and the SECOND (of
type LoadByteTarget) is the register READ — faithfully reproduced. -/
@[reducible] def CPU.execute_ld_byte (cpu : CPU) (target : LoadByteSource) (source : LoadByteTarget) :
    Option CPU :=
  (cpu.ld_read source).bind fun source_value => cpu.ld_write source_value target

/-- src/cpu/mod.rs lines 163-267, `execute_instruction`.  A `todo!()`
panic on an unimplemented operand is none. -/
@[reducible] def CPU.execute_instruction (cpu : CPU) (instruction : Instruction) : Option CPU :=
  match instruction with
  | .ADD register => cpu.perform_arithmetic_store_a CPU.add register
  | .ADC register => cpu.perform_arithmetic_store_a CPU.adc register
  | .AND register => cpu.perform_arithmetic_store_a CPU.and register
  | .BIT target bit_position =>
      cpu.prefixed_flags_only (fun c v => c.bit v bit_position) target
  | .CP register => cpu.perform_arithmetic_flags_only CPU.compare register
  | .DEC register => cpu.execute_dec register
  | .INC register => cpu.execute_inc register
  | .OR register => cpu.perform_arithmetic_store_a CPU.or register
  | .SBC register => cpu.perform_arithmetic_store_a CPU.sbc register
  | .SET target bit_position =>
      cpu.prefixed_store (fun c v => c.set v bit_position) target
  | .SUB register => cpu.perform_arithmetic_store_a CPU.sub register
  | .XOR register => cpu.perform_arithmetic_store_a CPU.xor register
  | .ADDHL register => cpu.execute_addhl register
  | .CCF => some cpu.ccf
  | .CPL => some (CPU.store_a (cpu.complement cpu.registers.a))
  | .SCF => some cpu.scf
  | .SWAP target => cpu.prefixed_store CPU.swap target
  | .RL target => cpu.prefixed_store CPU.rl target
  | .RLA => some (CPU.store_a (cpu.rla cpu.registers.a))
  | .RLC target => cpu.prefixed_store CPU.rlc target
  | .RLCA => some (CPU.store_a (cpu.rlca cpu.registers.a))
  | .RR target => cpu.prefixed_store CPU.rr target
  | .RRA => some (CPU.store_a (cpu.rra cpu.registers.a))
  | .RRC target => cpu.prefixed_store CPU.rrc target
  | .RRCA => some (CPU.store_a (cpu.rrca cpu.registers.a))
  | .LD load_type =>
      match load_type with
      | .BYTE target source => cpu.execute_ld_byte target source

/-! ## Statement-side definitions

Classifiers and projections used only to STATE the verified properties;
they are not part of the embedded program. -/

/-- The seven plain (non-indirect) 8-bit register names. -/
inductive R8
  | A | B | C | D | E | H | L
deriving Repr, DecidableEq

def R8.toArithmeticTarget : R8 → ArithmeticTarget
  | .A => .A
  | .B => .B
  | .C => .C
  | .D => .D
  | .E => .E
  | .H => .H
  | .L => .L

def R8.toPrefixTarget : R8 → PrefixTarget
  | .A => .A
  | .B => .B
  | .C => .C
  | .D => .D
  | .E => .E
  | .H => .H
  | .L => .L

def R8.toLoadByteSource : R8 → LoadByteSource
  | .A => .A
  | .B => .B
  | .C => .C
  | .D => .D
  | .E => .E
  | .H => .H
  | .L => .L

def R8.toLoadByteTarget : R8 → LoadByteTarget
  | .A => .A
  | .B => .B
  | .C => .C
  | .D => .D
  | .E => .E
  | .H => .H
  | .L => .L

/-- Value of a plain 8-bit register. -/
@[reducible] def Registers.get8 (r : Registers) : R8 → Nat
  | .A => r.a
  | .B => r.b
  | .C => r.c
  | .D => r.d
  | .E => r.e
  | .H => r.h
  | .L => r.l

/-- Overwrite one plain 8-bit register, leaving everything else (the
other six registers and the flags) unchanged. -/
@[reducible] def Registers.set8 (r : Registers) : R8 → Nat → Registers
  | .A, v => { r with a := v }
  | .B, v => { r with b := v }
  | .C, v => { r with c := v }
  | .D, v => { r with d := v }
  | .E, v => { r with e := v }
  | .H, v => { r with h := v }
  | .L, v => { r with l := v }

/-- The instructions whose operand resolves to an unimplemented arm:
any `HLI` operand, the stack pointer in INC/DEC, and `ADDHLTarget::SP`
— exactly the `todo!()` arms of src/cpu/mod.rs. -/
def Instruction.unimplemented_operand : Instruction → Bool
  | .ADD .HLI | .ADC .HLI | .AND .HLI | .CP .HLI => true
  | .OR .HLI | .SBC .HLI | .SUB .HLI | .XOR .HLI => true
  | .DEC .HLI | .DEC .SP | .INC .HLI | .INC .SP => true
  | .ADDHL .SP => true
  | .BIT .HLI _ | .SET .HLI _ | .SWAP .HLI => true
  | .RL .HLI | .RLC .HLI | .RR .HLI | .RRC .HLI => true
  | .LD (.BYTE .HLI _) => true
  | .LD (.BYTE _ .HLI) => true
  | _ => false

/-- Value of the paired register named by an ADDHL operand (none for the
unimplemented SP arm). -/
def pair_value (r : Registers) : ADDHLTarget → Option Nat
  | .BC => some r.get_bc
  | .DE => some r.get_de
  | .HL => some r.get_hl
  | .SP => none

/-- A concrete memory: every bus cell holds 0xFF. -/
def mem0 : Memory :=
  { bus := fun _ => 0xFF, interrupt_flags := InterruptFlags.new }

/-- A concrete freshly-initialised CPU state. -/
def cpu0 : CPU :=
  { pc := 0, sp := 0, registers := Registers.new, memory := mem0 }

/-- Concrete state for the RLA example: a = 0b1000_0000, carry false. -/
def cpuRLA : CPU :=
  { pc := 0, sp := 0, registers := { Registers.new with a := 0x80 }, memory := mem0 }

/-- Concrete state for the LD counterexample: a = 1, b = 2. -/
def cpuLD : CPU :=
  { pc := 0, sp := 0, registers := { Registers.new with a := 1, b := 2 }, memory := mem0 }

/-- The frame of a CPU state: program counter, stack pointer and memory
(bus bytes plus interrupt flags) — everything except the register file. -/
@[reducible] def frame3 (c : CPU) : Nat × Nat × Memory := (c.pc, c.sp, c.memory)

/-! ## Helper lemmas -/

/-- Reading back a 16-bit value below 65536 after a paired write returns
exactly that value (spec section 4.1, paired-register bijection). -/
theorem Registers.get_hl_set_hl (r : Registers) (v : Nat) (hv : v < 65536) :
    (r.set_hl v).get_hl = v := by
  show ((((v >>> 8) &&& 0xFF) <<< 8) ||| (v &&& 0xFF)) = v
  have h255 : (0xFF : Nat) = 2 ^ 8 - 1 := by norm_num
  apply Nat.eq_of_testBit_eq
  intro i
  simp only [Nat.testBit_lor, Nat.testBit_shiftLeft, Nat.testBit_land,
    Nat.testBit_shiftRight, h255, Nat.testBit_two_pow_sub_one]
  by_cases h8 : i < 8
  · simp [h8, show ¬ (i ≥ 8) by omega]
  · by_cases h16 : i < 16
    · simp [show i ≥ 8 by omega, show ¬ (i < 8) by omega,
        show 8 + (i - 8) = i by omega, show i - 8 < 8 by omega]
    · have hpow : (2 : Nat) ^ 16 ≤ 2 ^ i := Nat.pow_le_pow_right (by norm_num) (by omega)
      have h65536 : (65536 : Nat) = 2 ^ 16 := by norm_num
      have hbit : v.testBit i = false :=
        Nat.testBit_lt_two_pow (lt_of_lt_of_le (h65536 ▸ hv) hpow)
      simp [show ¬ (i < 8) by omega, show ¬ (i - 8 < 8) by omega, hbit]

/-- When every listed address is strictly below the 0xFFFF array bound,
the read loop succeeds and returns the bus content of each address. -/
theorem Memory.read_bytes_total (m : Memory) :
    ∀ l : List Nat, (∀ a ∈ l, a < 0xFFFF) → m.read_bytes l = some (l.map m.bus) := by
  intro l
  induction l with
  | nil => intro _; rfl
  | cons x xs ih =>
    intro h
    simp [Memory.read_bytes, Memory.read_byte, h x (List.mem_cons_self x xs),
      ih fun a ha => h a (List.mem_cons_of_mem _ ha)]

theorem perform_arithmetic_store_a_frame (cpu : CPU) (fn : CPU → Nat → Nat × CPU)
    (hfn : ∀ v, frame3 (fn cpu v).2 = frame3 cpu) :
    ∀ t : ArithmeticTarget, t ≠ ArithmeticTarget.HLI →
      (cpu.perform_arithmetic_store_a fn t).map frame3 = some (frame3 cpu)
  | .A, _ => congrArg some (hfn cpu.registers.a)
  | .B, _ => congrArg some (hfn cpu.registers.b)
  | .C, _ => congrArg some (hfn cpu.registers.c)
  | .D, _ => congrArg some (hfn cpu.registers.d)
  | .E, _ => congrArg some (hfn cpu.registers.e)
  | .H, _ => congrArg some (hfn cpu.registers.h)
  | .L, _ => congrArg some (hfn cpu.registers.l)
  | .HLI, ht => absurd rfl ht

theorem perform_arithmetic_flags_only_frame (cpu : CPU) (fn : CPU → Nat → CPU)
    (hfn : ∀ v, frame3 (fn cpu v) = frame3 cpu) :
    ∀ t : ArithmeticTarget, t ≠ ArithmeticTarget.HLI →
      (cpu.perform_arithmetic_flags_only fn t).map frame3 = some (frame3 cpu)
  | .A, _ => congrArg some (hfn cpu.registers.a)
  | .B, _ => congrArg some (hfn cpu.registers.b)
  | .C, _ => congrArg some (hfn cpu.registers.c)
  | .D, _ => congrArg some (hfn cpu.registers.d)
  | .E, _ => congrArg some (hfn cpu.registers.e)
  | .H, _ => congrArg some (hfn cpu.registers.h)
  | .L, _ => congrArg some (hfn cpu.registers.l)
  | .HLI, ht => absurd rfl ht

theorem prefixed_store_frame (cpu : CPU) (fn : CPU → Nat → Nat × CPU)
    (hfn : ∀ v, frame3 (fn cpu v).2 = frame3 cpu) :
    ∀ t : PrefixTarget, t ≠ PrefixTarget.HLI →
      (cpu.prefixed_store fn t).map frame3 = some (frame3 cpu)
  | .A, _ => congrArg some (hfn cpu.registers.a)
  | .B, _ => congrArg some (hfn cpu.registers.b)
  | .C, _ => congrArg some (hfn cpu.registers.c)
  | .D, _ => congrArg some (hfn cpu.registers.d)
  | .E, _ => congrArg some (hfn cpu.registers.e)
  | .H, _ => congrArg some (hfn cpu.registers.h)
  | .L, _ => congrArg some (hfn cpu.registers.l)
  | .HLI, ht => absurd rfl ht

theorem prefixed_flags_only_frame (cpu : CPU) (fn : CPU → Nat → CPU)
    (hfn : ∀ v, frame3 (fn cpu v) = frame3 cpu) :
    ∀ t : PrefixTarget, t ≠ PrefixTarget.HLI →
      (cpu.prefixed_flags_only fn t).map frame3 = some (frame3 cpu)
  | .A, _ => congrArg some (hfn cpu.registers.a)
  | .B, _ => congrArg some (hfn cpu.registers.b)
  | .C, _ => congrArg some (hfn cpu.registers.c)
  | .D, _ => congrArg some (hfn cpu.registers.d)
  | .E, _ => congrArg some (hfn cpu.registers.e)
  | .H, _ => congrArg some (hfn cpu.registers.h)
  | .L, _ => congrArg some (hfn cpu.registers.l)
  | .HLI, ht => absurd rfl ht

theorem ld_write_frame (cpu : CPU) (sv : Nat) :
    ∀ t : LoadByteSource, t ≠ LoadByteSource.HLI →
      (cpu.ld_write sv t).map frame3 = some (frame3 cpu)
  | .A, _ => rfl
  | .B, _ => rfl
  | .C, _ => rfl
  | .D, _ => rfl
  | .E, _ => rfl
  | .H, _ => rfl
  | .L, _ => rfl
  | .HLI, ht => absurd rfl ht

theorem add_frame3 (cpu : CPU) (v : Nat) : frame3 (cpu.add v).2 = frame3 cpu := rfl

theorem adc_frame3 (cpu : CPU) (v : Nat) : frame3 (cpu.adc v).2 = frame3 cpu := rfl

theorem and_frame3 (cpu : CPU) (v : Nat) : frame3 (cpu.and v).2 = frame3 cpu := rfl

theorem or_frame3 (cpu : CPU) (v : Nat) : frame3 (cpu.or v).2 = frame3 cpu := rfl

theorem sbc_frame3 (cpu : CPU) (v : Nat) : frame3 (cpu.sbc v).2 = frame3 cpu := rfl

theorem sub_frame3 (cpu : CPU) (v : Nat) : frame3 (cpu.sub v).2 = frame3 cpu := rfl

theorem xor_frame3 (cpu : CPU) (v : Nat) : frame3 (cpu.xor v).2 = frame3 cpu := rfl

theorem dec_frame3 (cpu : CPU) (v : Nat) : frame3 (cpu.dec v).2 = frame3 cpu := rfl

theorem inc_frame3 (cpu : CPU) (v : Nat) : frame3 (cpu.inc v).2 = frame3 cpu := rfl

theorem swap_frame3 (cpu : CPU) (v : Nat) : frame3 (cpu.swap v).2 = frame3 cpu := rfl

theorem rl_frame3 (cpu : CPU) (v : Nat) : frame3 (cpu.rl v).2 = frame3 cpu := rfl

theorem rlc_frame3 (cpu : CPU) (v : Nat) : frame3 (cpu.rlc v).2 = frame3 cpu := rfl

theorem rr_frame3 (cpu : CPU) (v : Nat) : frame3 (cpu.rr v).2 = frame3 cpu := rfl

theorem rrc_frame3 (cpu : CPU) (v : Nat) : frame3 (cpu.rrc v).2 = frame3 cpu := rfl

theorem rla_frame3 (cpu : CPU) (v : Nat) : frame3 (cpu.rla v).2 = frame3 cpu := rfl

theorem rlca_frame3 (cpu : CPU) (v : Nat) : frame3 (cpu.rlca v).2 = frame3 cpu := rfl

theorem rra_frame3 (cpu : CPU) (v : Nat) : frame3 (cpu.rra v).2 = frame3 cpu := rfl

theorem rrca_frame3 (cpu : CPU) (v : Nat) : frame3 (cpu.rrca v).2 = frame3 cpu := rfl

theorem complement_frame3 (cpu : CPU) (v : Nat) : frame3 (cpu.complement v).2 = frame3 cpu := rfl

theorem compare_frame3 (cpu : CPU) (v : Nat) : frame3 (cpu.compare v) = frame3 cpu := rfl

/-- Rearranging the chained byte-wrap of ADC: adding the carry after
wrapping the first sum is the same as wrapping the whole sum. -/
theorem adc_mod_eq (a x c : Nat) : ((a + x) % 256 + c) % 256 = (a + x + c) % 256 := by
  omega

/-! ## Claim theorems -/

/-- C1: for every instruction whose operand resolves to HLI, to the
stack pointer in INC/DEC, or to the ADDHLTarget::SP arm,
execute_instruction signals the fatal unimplemented-operand failure
(modelled as none): no post-state is produced, so no register, flag, pc,
sp or memory location is read into a result or written. -/
theorem unimplemented_operands_fail (cpu : CPU) (instruction : Instruction)
    (h : instruction.unimplemented_operand = true) :
    cpu.execute_instruction instruction = none := by
  cases instruction <;>
    first
      | exact absurd h (by decide)
      | (rename_i t
         cases t <;> first | rfl | exact absurd h (by decide))
      | (rename_i t p
         cases t <;> cases p <;> first | rfl | exact absurd h (by decide))
      | (rename_i lt
         rcases lt with ⟨s, d⟩
         cases s <;> cases d <;> first | rfl | exact absurd h (by decide))

/-- Witness for C1 at a concrete input: ADD with the HLI operand on the
fresh CPU fails. -/
theorem unimplemented_operands_fail_witness :
    (Instruction.ADD ArithmeticTarget.HLI).unimplemented_operand = true ∧
      cpu0.execute_instruction (Instruction.ADD ArithmeticTarget.HLI) = none :=
  ⟨by decide, unimplemented_operands_fail cpu0 _ (by decide)⟩

set_option maxHeartbeats 1000000 in
/-- C10: for every instruction whose operands avoid the unimplemented
arms, execution succeeds and leaves pc, sp and the whole memory bus
(bytes and interrupt flags) unchanged — only the register file (8-bit
registers and flags) can change. -/
theorem implemented_instructions_preserve_frame (cpu : CPU) :
    ∀ instruction : Instruction, instruction.unimplemented_operand = false →
      (cpu.execute_instruction instruction).map frame3 = some (frame3 cpu)
  | .ADD t, h => perform_arithmetic_store_a_frame cpu CPU.add (add_frame3 cpu) t (fun e => Bool.noConfusion (e ▸ h))
  | .ADC t, h => perform_arithmetic_store_a_frame cpu CPU.adc (adc_frame3 cpu) t (fun e => Bool.noConfusion (e ▸ h))
  | .AND t, h => perform_arithmetic_store_a_frame cpu CPU.and (and_frame3 cpu) t (fun e => Bool.noConfusion (e ▸ h))
  | .OR t, h => perform_arithmetic_store_a_frame cpu CPU.or (or_frame3 cpu) t (fun e => Bool.noConfusion (e ▸ h))
  | .SBC t, h => perform_arithmetic_store_a_frame cpu CPU.sbc (sbc_frame3 cpu) t (fun e => Bool.noConfusion (e ▸ h))
  | .SUB t, h => perform_arithmetic_store_a_frame cpu CPU.sub (sub_frame3 cpu) t (fun e => Bool.noConfusion (e ▸ h))
  | .XOR t, h => perform_arithmetic_store_a_frame cpu CPU.xor (xor_frame3 cpu) t (fun e => Bool.noConfusion (e ▸ h))
  | .CP t, h => perform_arithmetic_flags_only_frame cpu CPU.compare (compare_frame3 cpu) t (fun e => Bool.noConfusion (e ▸ h))
  | .BIT t p, h => prefixed_flags_only_frame cpu (fun c v => c.bit v p) (fun _ => rfl) t (fun e => Bool.noConfusion (e ▸ h))
  | .SET t p, h => prefixed_store_frame cpu (fun c v => c.set v p) (fun _ => rfl) t (fun e => Bool.noConfusion (e ▸ h))
  | .SWAP t, h => prefixed_store_frame cpu CPU.swap (swap_frame3 cpu) t (fun e => Bool.noConfusion (e ▸ h))
  | .RL t, h => prefixed_store_frame cpu CPU.rl (rl_frame3 cpu) t (fun e => Bool.noConfusion (e ▸ h))
  | .RLC t, h => prefixed_store_frame cpu CPU.rlc (rlc_frame3 cpu) t (fun e => Bool.noConfusion (e ▸ h))
  | .RR t, h => prefixed_store_frame cpu CPU.rr (rr_frame3 cpu) t (fun e => Bool.noConfusion (e ▸ h))
  | .RRC t, h => prefixed_store_frame cpu CPU.rrc (rrc_frame3 cpu) t (fun e => Bool.noConfusion (e ▸ h))
  | .DEC t, h =>
    match t, h with
    | .A, _ => rfl
    | .B, _ => rfl
    | .C, _ => rfl
    | .D, _ => rfl
    | .E, _ => rfl
    | .H, _ => rfl
    | .L, _ => rfl
    | .BC, _ => rfl
    | .DE, _ => rfl
    | .HL, _ => rfl
    | .HLI, h => Bool.noConfusion h
    | .SP, h => Bool.noConfusion h
  | .INC t, h =>
    match t, h with
    | .A, _ => rfl
    | .B, _ => rfl
    | .C, _ => rfl
    | .D, _ => rfl
    | .E, _ => rfl
    | .H, _ => rfl
    | .L, _ => rfl
    | .BC, _ => rfl
    | .DE, _ => rfl
    | .HL, _ => rfl
    | .HLI, h => Bool.noConfusion h
    | .SP, h => Bool.noConfusion h
  | .ADDHL t, h =>
    match t, h with
    | .BC, _ => rfl
    | .DE, _ => rfl
    | .HL, _ => rfl
    | .SP, h => Bool.noConfusion h
  | .RLA, _ => rfl
  | .RLCA, _ => rfl
  | .RRA, _ => rfl
  | .RRCA, _ => rfl
  | .CCF, _ => rfl
  | .CPL, _ => rfl
  | .SCF, _ => rfl
  | .LD (.BYTE t d), h =>
    match d, h with
    | .A, h => ld_write_frame cpu cpu.registers.a t (fun e => Bool.noConfusion (e ▸ h))
    | .B, h => ld_write_frame cpu cpu.registers.b t (fun e => Bool.noConfusion (e ▸ h))
    | .C, h => ld_write_frame cpu cpu.registers.c t (fun e => Bool.noConfusion (e ▸ h))
    | .D, h => ld_write_frame cpu cpu.registers.d t (fun e => Bool.noConfusion (e ▸ h))
    | .E, h => ld_write_frame cpu cpu.registers.e t (fun e => Bool.noConfusion (e ▸ h))
    | .H, h => ld_write_frame cpu cpu.registers.h t (fun e => Bool.noConfusion (e ▸ h))
    | .L, h => ld_write_frame cpu cpu.registers.l t (fun e => Bool.noConfusion (e ▸ h))
    | .HLI, h =>
      match t, h with
      | .A, h => Bool.noConfusion h
      | .B, h => Bool.noConfusion h
      | .C, h => Bool.noConfusion h
      | .D, h => Bool.noConfusion h
      | .E, h => Bool.noConfusion h
      | .H, h => Bool.noConfusion h
      | .L, h => Bool.noConfusion h
      | .HLI, h => Bool.noConfusion h

/-- Witness for C10 at a concrete input: ADD A on the fresh CPU succeeds
and preserves pc, sp and memory. -/
theorem implemented_instructions_preserve_frame_witness :
    (Instruction.ADD ArithmeticTarget.A).unimplemented_operand = false ∧
      (cpu0.execute_instruction (Instruction.ADD ArithmeticTarget.A)).map frame3 =
        some (frame3 cpu0) :=
  ⟨by decide, implemented_instructions_preserve_frame cpu0 (Instruction.ADD ArithmeticTarget.A) (by decide)⟩

/-- C2: for every CPU state and plain-register operand t, ADC(t) sets
register a to (a + t + carry_in) mod 256, zero to (result = 0), subtract
to false, half_carry to (a and 0xF) + (t and 0xF) + carry_in > 0xF, and
carry exactly when either the add of a and t or the subsequent add of
carry_in overflows 8 bits — all from the pre-state values. -/
theorem adc_spec (cpu : CPU) (t : R8) :
    cpu.execute_instruction (Instruction.ADC t.toArithmeticTarget) =
      some { cpu with registers := { cpu.registers with
        a := (cpu.registers.a + cpu.registers.get8 t +
              (if cpu.registers.f.carry then 1 else 0)) % 256
        f := { zero := decide ((cpu.registers.a + cpu.registers.get8 t +
                 (if cpu.registers.f.carry then 1 else 0)) % 256 = 0)
               subtract := false
               half_carry := decide (0xF < (cpu.registers.a &&& 0xF) +
                 (cpu.registers.get8 t &&& 0xF) + (if cpu.registers.f.carry then 1 else 0))
               carry := (decide (256 ≤ cpu.registers.a + cpu.registers.get8 t) ||
                 decide (256 ≤ (cpu.registers.a + cpu.registers.get8 t) % 256 +
                   (if cpu.registers.f.carry then 1 else 0))) } } } := by
  cases t <;> (rw [← adc_mod_eq]; exact rfl)

/-- C3: ADDHL with a BC/DE/HL operand adds the pre-state pair value x
into HL modulo 65536, leaves zero unchanged, clears subtract, sets
half_carry to the carry out of bit 11 and carry to the 16-bit overflow. -/
theorem addhl_spec (cpu : CPU) (t : ADDHLTarget) (x : Nat)
    (hx : pair_value cpu.registers t = some x) :
    ∃ cpu', cpu.execute_instruction (Instruction.ADDHL t) = some cpu' ∧
      cpu'.registers.get_hl = (cpu.registers.get_hl + x) % 65536 ∧
      cpu'.registers.f.zero = cpu.registers.f.zero ∧
      cpu'.registers.f.subtract = false ∧
      cpu'.registers.f.half_carry =
        decide (0x7FF < (x &&& 0x7FF) + (cpu.registers.get_hl &&& 0x7FF)) ∧
      cpu'.registers.f.carry = decide (65536 ≤ cpu.registers.get_hl + x) := by
  cases t
  case BC =>
    obtain rfl : cpu.registers.get_bc = x := by simpa [pair_value] using hx
    exact ⟨_, rfl, Registers.get_hl_set_hl _ _ (Nat.mod_lt _ (by norm_num)),
      rfl, rfl, rfl, rfl⟩
  case DE =>
    obtain rfl : cpu.registers.get_de = x := by simpa [pair_value] using hx
    exact ⟨_, rfl, Registers.get_hl_set_hl _ _ (Nat.mod_lt _ (by norm_num)),
      rfl, rfl, rfl, rfl⟩
  case HL =>
    obtain rfl : cpu.registers.get_hl = x := by simpa [pair_value] using hx
    exact ⟨_, rfl, Registers.get_hl_set_hl _ _ (Nat.mod_lt _ (by norm_num)),
      rfl, rfl, rfl, rfl⟩
  case SP => simp [pair_value] at hx

/-- Witness for C3 at a concrete input: ADDHL BC on the fresh CPU. -/
theorem addhl_spec_witness :
    pair_value cpu0.registers ADDHLTarget.BC = some 0 ∧
      ∃ cpu', cpu0.execute_instruction (Instruction.ADDHL ADDHLTarget.BC) = some cpu' ∧
        cpu'.registers.get_hl = (cpu0.registers.get_hl + 0) % 65536 ∧
        cpu'.registers.f.zero = cpu0.registers.f.zero ∧
        cpu'.registers.f.subtract = false ∧
        cpu'.registers.f.half_carry =
          decide (0x7FF < (0 &&& 0x7FF) + (cpu0.registers.get_hl &&& 0x7FF)) ∧
        cpu'.registers.f.carry = decide (65536 ≤ cpu0.registers.get_hl + 0) :=
  ⟨by decide, addhl_spec cpu0 ADDHLTarget.BC 0 (by decide)⟩

/-- C4: RRC on a plain register stores v >>> 1 (bit 0 dropped, not
rotated into bit 7), sets zero to (result = 0), clears subtract and
half_carry, and sets carry to bit 0 of the pre-state value; RRCA is the
same transform on register a with the zero flag forced false. -/
theorem rrc_spec :
    (∀ (cpu : CPU) (t : R8),
        cpu.execute_instruction (Instruction.RRC t.toPrefixTarget) =
          some { cpu with registers :=
            { cpu.registers.set8 t (cpu.registers.get8 t >>> 1) with
              f := { zero := decide (cpu.registers.get8 t >>> 1 = 0)
                     subtract := false
                     half_carry := false
                     carry := decide (cpu.registers.get8 t &&& 1 = 1) } } }) ∧
    ∀ cpu : CPU,
      cpu.execute_instruction Instruction.RRCA =
        some { cpu with registers := { cpu.registers with
          a := cpu.registers.a >>> 1
          f := { zero := false
                 subtract := false
                 half_carry := false
                 carry := decide (cpu.registers.a &&& 1 = 1) } } } :=
  ⟨fun cpu t =>
    match t with
    | .A => rfl
    | .B => rfl
    | .C => rfl
    | .D => rfl
    | .E => rfl
    | .H => rfl
    | .L => rfl,
   fun cpu => rfl⟩

/-- C5: each accumulator rotate (RLA, RLCA, RRA, RRCA) leaves the zero
flag false for every state, and in particular RLA on a = 0b1000_0000
with carry false yields a = 0, carry = true, zero = false. -/
theorem rotate_zero_suppression :
    (∀ cpu : CPU,
       (cpu.execute_instruction Instruction.RLA).map (fun c => c.registers.f.zero) =
         some false) ∧
    (∀ cpu : CPU,
       (cpu.execute_instruction Instruction.RLCA).map (fun c => c.registers.f.zero) =
         some false) ∧
    (∀ cpu : CPU,
       (cpu.execute_instruction Instruction.RRA).map (fun c => c.registers.f.zero) =
         some false) ∧
    (∀ cpu : CPU,
       (cpu.execute_instruction Instruction.RRCA).map (fun c => c.registers.f.zero) =
         some false) ∧
    (cpuRLA.execute_instruction Instruction.RLA).map
        (fun c => (c.registers.a, c.registers.f.carry, c.registers.f.zero)) =
      some (0, true, false) :=
  ⟨fun _ => rfl, fun _ => rfl, fun _ => rfl, fun _ => rfl, by decide⟩

/-- Counterexample for C6 as stated: on a = 1, b = 2, the instruction
LD(BYTE(LoadByteSource::B, LoadByteTarget::A)) would have to copy the
src register b into the dst register a, giving (a, b) = (2, 2); the
code instead copies a into b, giving (1, 1). -/
theorem ld_byte_counterexample :
    ((cpuLD.execute_instruction
        (Instruction.LD (LoadType.BYTE LoadByteSource.B LoadByteTarget.A))).map
      fun c => (c.registers.a, c.registers.b)) ≠ some (2, 2) := by decide

/-- C6 (amended): LD(BYTE(src, dst)) with plain-register operands copies
the value of the register named by dst (the LoadByteTarget operand) into
the register named by src (the LoadByteSource operand), leaving every
other register and all four flags unchanged. -/
theorem ld_byte_amended (cpu : CPU) (src dst : R8) :
    cpu.execute_instruction
        (Instruction.LD (LoadType.BYTE src.toLoadByteSource dst.toLoadByteTarget)) =
      some { cpu with registers := cpu.registers.set8 src (cpu.registers.get8 dst) } := by
  cases src <;> cases dst <;> exact rfl

/-- Counterexample for C7 as stated: reading the top 16-bit address
0xFFFF indexes past the 0xFFFF-element bus array and fails. -/
theorem read_byte_top_counterexample : mem0.read_byte 0xFFFF = none := rfl

/-- C7 (amended): read_byte succeeds and returns the bus byte for every
address 0x0000 through 0xFFFE; reading address 0xFFFF is a fatal
out-of-bounds access. -/
theorem read_byte_amended (m : Memory) (address : Nat) :
    (address < 0xFFFF → m.read_byte address = some (m.bus address)) ∧
      m.read_byte 0xFFFF = none :=
  ⟨fun h => by simp [Memory.read_byte, h], rfl⟩

/-- Witness for C7 (amended) at a concrete input. -/
theorem read_byte_amended_witness :
    mem0.read_byte 0 = some 0xFF ∧ mem0.read_byte 0xFFFF = none :=
  ⟨(read_byte_amended mem0 0).1 (by decide), (read_byte_amended mem0 0).2⟩

/-- C8: what Memory construction actually does at the boundary inputs —
a 0x4000-byte image (allowed by the spec) is rejected, an exactly
0x8000-byte image constructs, and a 0x8001-byte image is rejected. -/
theorem memory_new_exact_length_only :
    Memory.new none (List.replicate 0x4000 0) = none ∧
      (Memory.new none (List.replicate 0x8000 0)).isSome = true ∧
      Memory.new none (List.replicate 0x8001 0) = none := by
  refine ⟨?_, ?_, ?_⟩ <;> unfold Memory.new <;> rw [List.length_replicate]
  · rw [if_neg (by norm_num [BANK_0_SIZE, BANK_0_END, BANK_0_START,
      BANK_N_SIZE, BANK_N_END, BANK_N_START])]
  · rw [if_pos (by norm_num [BANK_0_SIZE, BANK_0_END, BANK_0_START,
      BANK_N_SIZE, BANK_N_END, BANK_N_START])]
    rfl
  · rw [if_neg (by norm_num [BANK_0_SIZE, BANK_0_END, BANK_0_START,
      BANK_N_SIZE, BANK_N_END, BANK_N_START])]

/-- C9: verify_logo succeeds exactly when every byte of the 48-byte
reference logo occurs somewhere among the bus bytes at addresses 0x0104
through 0x0133 inclusive (a subset check, not positional). -/
theorem verify_logo_spec (m : Memory) :
    m.verify_logo = true ↔
      ∀ byte ∈ m.official_logo, ∃ address,
        0x0104 ≤ address ∧ address ≤ 0x0133 ∧ m.bus address = byte := by
  have hlen : (0x0133 + 1 - 0x0104 : Nat) = 48 := by norm_num
  have hrange : ∀ a ∈ List.range' 0x0104 48, a < 0xFFFF := by
    intro a ha
    rw [List.mem_range'_1] at ha
    omega
  have hbytes : m.read_bytes (List.range' 0x0104 48) =
      some ((List.range' 0x0104 48).map m.bus) :=
    m.read_bytes_total _ hrange
  rw [Memory.verify_logo, Memory.read_byte_range, hlen, hbytes]
  rw [List.all_eq_true]
  constructor
  · intro hall byte hmem
    have := hall byte hmem
    rw [List.elem_iff, List.mem_map] at this
    obtain ⟨a, ha, hba⟩ := this
    rw [List.mem_range'_1] at ha
    exact ⟨a, ha.1, by omega, hba⟩
  · intro hsub byte hmem
    obtain ⟨a, h1, h2, h3⟩ := hsub byte hmem
    rw [List.elem_iff, List.mem_map]
    exact ⟨a, by rw [List.mem_range'_1]; omega, h3⟩

end GB
